import Mathlib

/-!
Shallow embedding of `gitcheck.py` (coldfix/gitcheck): the status-aggregation
core of a tool that reports, per git repository, a compact 7-column status
code.  Python string idioms (`str.strip`, `str.split`, `str.splitlines`,
`int(...)`, the `SYNC_PART` regex) are modelled by explicit list-of-character
functions, and Python exceptions (`ValueError`, `AttributeError`) by
`Except PyErr`.
-/

namespace Gitcheck

/-- Whitespace characters recognised by Python `str.strip` / `str.split`
(ASCII subset). -/
def isPySpace (c : Char) : Bool :=
  c == ' ' || c == '\t' || c == '\n' || c == '\r' || c == '\x0b' || c == '\x0c'

def pyStripList (cs : List Char) : List Char :=
  ((cs.dropWhile isPySpace).reverse.dropWhile isPySpace).reverse

/-- Python `s.strip()`. -/
def pyStrip (s : String) : String := String.mk (pyStripList s.data)

def listStartsWith : List Char → List Char → Bool
  | [], _ => true
  | _ :: _, [] => false
  | p :: ps, c :: cs => p == c && listStartsWith ps cs

/-- Python `s.startswith(pre)`. -/
def pyStartswith (s pre : String) : Bool := listStartsWith pre.data s.data

/-- Python `s.split(sep)` for a one-character separator: empty pieces are
kept, and the empty string yields one empty piece. -/
def splitOnChar (sep : Char) : List Char → List (List Char)
  | [] => [[]]
  | c :: cs =>
    let r := splitOnChar sep cs
    if c == sep then [] :: r
    else
      match r with
      | h :: t => (c :: h) :: t
      | [] => [[c]]

/-- Python `s.splitlines()` restricted to LF separators (the only line
terminator produced by the commands the program runs). -/
def pySplitlines (s : String) : List String :=
  match s.data with
  | [] => []
  | cs =>
    let parts := splitOnChar '\n' cs
    let parts := if cs.getLast? == some '\n' then parts.dropLast else parts
    parts.map String.mk

def pyWsSplitAux : List Char → List Char → List String
  | [], acc => if acc.isEmpty then [] else [String.mk acc.reverse]
  | c :: cs, acc =>
    if isPySpace c then
      if acc.isEmpty then pyWsSplitAux cs []
      else String.mk acc.reverse :: pyWsSplitAux cs []
    else pyWsSplitAux cs (c :: acc)

/-- Python `s.split()` with no arguments: split on whitespace runs,
discarding empty tokens. -/
def pyWsSplit (s : String) : List String := pyWsSplitAux s.data []

/-- Python `s.split(maxsplit=1)`: at most one split, on the first
whitespace run after the first token; the remainder is kept verbatim. -/
def pyWsSplit1 (s : String) : List String :=
  match s.data.dropWhile isPySpace with
  | [] => []
  | cs =>
    let tok := cs.takeWhile (fun c => !(isPySpace c))
    let rest := (cs.dropWhile (fun c => !(isPySpace c))).dropWhile isPySpace
    if rest.isEmpty then [String.mk tok] else [String.mk tok, String.mk rest]

/-- Python `s.split('...', 1)` when `'...' in s`: the pieces before and
after the first occurrence of three consecutive dots. -/
def splitFirstDots : List Char → Option (List Char × List Char)
  | [] => none
  | '.' :: '.' :: '.' :: rest => some ([], rest)
  | c :: cs => (splitFirstDots cs).map (fun p => (c :: p.1, p.2))

/-- Python `'...' in s`: the line contains three consecutive dots. -/
def hasDots (cs : List Char) : Bool := (splitFirstDots cs).isSome

def noDoubleUnderscore : List Char → Bool
  | '_' :: '_' :: _ => false
  | _ :: cs => noDoubleUnderscore cs
  | [] => true

/-- Valid digit body for Python `int(...)`: nonempty, only digits and
underscores, beginning and ending with a digit, no two consecutive
underscores (so each underscore sits between digits). -/
def validUnderscored (cs : List Char) : Bool :=
  match cs with
  | [] => false
  | c :: _ =>
    c.isDigit &&
    (match cs.reverse with
     | d :: _ => d.isDigit
     | [] => false) &&
    cs.all (fun x => x.isDigit || x == '_') &&
    noDoubleUnderscore cs

def digitsVal (cs : List Char) : Nat :=
  cs.foldl (fun a c => 10 * a + (c.toNat - '0'.toNat)) 0

/-- Python `int(s)` on ASCII decimal input: surrounding whitespace is
stripped, a single optional sign is allowed, and underscores may separate
digit groups; anything else fails. -/
def pyInt? (s : String) : Option Int :=
  let cs := pyStripList s.data
  let signBody : Int × List Char :=
    match cs with
    | '+' :: rest => (1, rest)
    | '-' :: rest => (-1, rest)
    | _ => (1, cs)
  if validUnderscored signBody.2 then
    some (signBody.1 * Int.ofNat (digitsVal (signBody.2.filter Char.isDigit)))
  else none

/-- Python `'{:n}'.format(s)`: left-justify in a field of width `n`. -/
def padRight (s : String) (n : Nat) : String :=
  s ++ String.mk (List.replicate (n - s.length) ' ')

/-- Python exceptions raised by the status-parsing code: `ValueError`
(failed tuple unpacking or `int(...)`), and `AttributeError` (assigning the
read-only `synced` property, or reading a never-assigned `head_sync`). -/
inductive PyErr where
  | valueError
  | attributeError
deriving DecidableEq

/-- One branch's sync record (class `GitSyncStatus`).  `gone`, `ahead`,
`behind` carry the class-level defaults until the divergence field assigns
them; `extra` records assignments the divergence loop makes to any other
attribute name (the program never reads those attributes). -/
structure GitSyncStatus where
  branch : String
  remote : String
  gone : Bool := false
  ahead : Int := 0
  behind : Int := 0
  extra : List (String × Int) := []
deriving DecidableEq

/-- `self.is_tracked = bool(remote)`. -/
def GitSyncStatus.is_tracked (s : GitSyncStatus) : Bool := s.remote != ""

/-- Property `synced`: `self.ahead == 0 and self.behind == 0 and not self.gone`. -/
def GitSyncStatus.synced (s : GitSyncStatus) : Bool :=
  s.ahead == 0 && s.behind == 0 && !s.gone

/-- The regex `SYNC_PART = re.compile(r'\[([^\[\]]*)\]$')` applied with
`.match`: the string must be an entire bracket group with no nested
brackets (`$` also matches just before one trailing newline). -/
def syncPartInner? (d : String) : Option String :=
  let cs := if d.data.getLast? == some '\n' then d.data.dropLast else d.data
  match cs with
  | '[' :: rest =>
    if rest.getLast? == some ']' &&
        rest.dropLast.all (fun c => !(c == '[') && !(c == ']')) then
      some (String.mk rest.dropLast)
    else none
  | _ => none

/-- One iteration of the divergence loop: a bare `gone` token sets `gone`;
otherwise the token must unpack as `key val` with `val` an integer
(`ValueError` if not), and the value is assigned to the named attribute.
`ahead`, `behind` and `gone` (by truthiness) are the attributes the program
reads; assigning the read-only property `synced` raises `AttributeError`;
every other name is recorded in `extra`. -/
def applyToken (s : GitSyncStatus) (part : String) : Except PyErr GitSyncStatus :=
  if pyStrip part == "gone" then .ok { s with gone := true }
  else
    match pyWsSplit part with
    | [key, val] =>
      match pyInt? val with
      | none => .error .valueError
      | some v =>
        match key with
        | "ahead" => .ok { s with ahead := v }
        | "behind" => .ok { s with behind := v }
        | "gone" => .ok { s with gone := v != 0 }
        | "synced" => .error .attributeError
        | _ => .ok { s with extra := s.extra ++ [(key, v)] }
    | _ => .error .valueError

def applyTokens : GitSyncStatus → List String → Except PyErr GitSyncStatus
  | s, [] => .ok s
  | s, t :: ts =>
    match applyToken s t with
    | .ok s' => applyTokens s' ts
    | .error e => .error e

/-- `GitSyncStatus.__init__(branch, remote, divergence)`. -/
def GitSyncStatus.init (branch remote divergence : String) :
    Except PyErr GitSyncStatus :=
  let s : GitSyncStatus := { branch := branch, remote := remote }
  match syncPartInner? divergence with
  | none => .ok s
  | some inner => applyTokens s ((splitOnChar ',' inner.data).map String.mk)

/-- `GitSyncStatus.parse(status_line)`: split on the first `...` if
present, then split the remainder on the first whitespace run into remote
and divergence (`ValueError` from unpacking leaves them unchanged), strip
all three parts, and construct. -/
def GitSyncStatus.parse (status_line : String) : Except PyErr GitSyncStatus :=
  match splitFirstDots status_line.data with
  | none => GitSyncStatus.init (pyStrip status_line) "" ""
  | some (b, r) =>
    match pyWsSplit1 (String.mk r) with
    | [r', d] => GitSyncStatus.init (pyStrip (String.mk b)) (pyStrip r') (pyStrip d)
    | _ => GitSyncStatus.init (pyStrip (String.mk b)) (pyStrip (String.mk r)) (pyStrip "")

/-- The status-code part of `info()`: `<`/`>` concatenated for
behind/ahead, `=` when that concatenation is empty, `U` when untracked. -/
def GitSyncStatus.infoCode (s : GitSyncStatus) : String :=
  if s.is_tracked then
    let c := (if s.behind > 0 then "<" else "") ++ (if s.ahead > 0 then ">" else "")
    if c == "" then "=" else c
  else "U"

/-- `info()`: `'{:9}{:2} {}'.format('', code, self.branch)`. -/
def GitSyncStatus.info (s : GitSyncStatus) : String :=
  "         " ++ padRight s.infoCode 2 ++ " " ++ s.branch

/-- Class `GitFlags`: the set of one-character change codes and the named
predicates computed from it. -/
structure GitFlags where
  flags : Finset Char
  clean : Bool
  modified : Bool
  added : Bool
  deleted : Bool
  renamed : Bool
  copied : Bool
  unmerged : Bool
  typechange : Bool
deriving DecidableEq

/-- `GitFlags.__init__(flags)`: discard the space sentinel, then compute
every predicate by set membership. -/
def GitFlags.init (flags0 : Finset Char) : GitFlags :=
  let flags := flags0.erase ' '
  { flags := flags
    clean := decide (flags = ∅)
    modified := decide ('M' ∈ flags)
    added := decide ('A' ∈ flags)
    deleted := decide ('D' ∈ flags)
    renamed := decide ('R' ∈ flags)
    copied := decide ('C' ∈ flags)
    unmerged := decide ('U' ∈ flags)
    typechange := decide ('T' ∈ flags) }

/-- One repository's aggregated status (class `GitStatus`). -/
structure GitStatus where
  workdir_status : GitFlags
  index_status : GitFlags
  untracked : Bool
  num_stash_entries : Nat
  head_sync : GitSyncStatus
  branch_sync : List GitSyncStatus
deriving DecidableEq

/-- Property `synced`: all branch records whose name does not start with
`_` report synced. -/
def GitStatus.synced (s : GitStatus) : Bool :=
  (s.branch_sync.filter (fun stat => !(pyStartswith stat.branch "_"))).all
    GitSyncStatus.synced

/-- Property `num_untracked_branches`: branches other than the head, not
starting with `_`, that are untracked. -/
def GitStatus.num_untracked_branches (s : GitStatus) : Nat :=
  s.branch_sync.countP (fun stat =>
    !(pyStartswith stat.branch "_") && stat.branch != s.head_sync.branch &&
      !stat.is_tracked)

/-- Property `clean`. -/
def GitStatus.clean (s : GitStatus) : Bool :=
  s.workdir_status.clean && s.index_status.clean && s.synced &&
    s.head_sync.is_tracked && (s.num_untracked_branches == 0)

/-- `code()`: the fixed 7-column status string. -/
def GitStatus.code (s : GitStatus) : String :=
  String.mk [
    if s.workdir_status.clean then ' ' else 'W',
    if s.index_status.clean then ' ' else 'I',
    if s.untracked then 'T' else ' ',
    if s.synced then ' ' else 'L',
    if s.head_sync.is_tracked then ' ' else 'H',
    if s.num_untracked_branches == 0 then ' ' else 'B',
    if s.num_stash_entries == 0 then ' ' else 'S']

/-- The line loop of `GitStatus.__init__` over the porcelain status
output: accumulates the head sync record, the untracked-file flag, and the
index/workdir flag sets; a line shorter than two characters fails the
`i, w = l[:2]` unpacking. -/
def statusFold :
    List String → Option GitSyncStatus → Bool → Finset Char → Finset Char →
    Except PyErr (Option GitSyncStatus × Bool × Finset Char × Finset Char)
  | [], h, u, i, w => .ok (h, u, i, w)
  | l :: ls, h, u, i, w =>
    if pyStartswith l "## " then
      match GitSyncStatus.parse (String.mk (l.data.drop 3)) with
      | .ok hs => statusFold ls (some hs) u i w
      | .error e => .error e
    else if pyStartswith l "?? " then
      statusFold ls h true i w
    else
      match l.data with
      | c1 :: c2 :: _ => statusFold ls h u (insert c1 i) (insert c2 w)
      | _ => .error .valueError

def mapParse : List String → Except PyErr (List GitSyncStatus)
  | [] => .ok []
  | l :: ls =>
    match GitSyncStatus.parse l with
    | .ok s => (mapParse ls).map (s :: ·)
    | .error e => .error e

/-- `GitStatus.__init__`, as a pure function of the decoded text of the
three commands it runs (status, stash list, per-branch sync).  A status
output with no `## ` header line leaves `head_sync` unassigned; in the
source, reading it then raises `AttributeError` at first use, reported
here at construction. -/
def GitStatus.init (statusOut stashOut syncOut : String) :
    Except PyErr GitStatus :=
  match statusFold (pySplitlines statusOut) none false ∅ ∅ with
  | .error e => .error e
  | .ok (head?, untr, idx, wd) =>
    match head? with
    | none => .error .attributeError
    | some head =>
      match mapParse (pySplitlines syncOut) with
      | .error e => .error e
      | .ok syncs =>
        .ok { workdir_status := GitFlags.init wd
              index_status := GitFlags.init idx
              untracked := untr
              num_stash_entries := (pySplitlines stashOut).length
              head_sync := head
              branch_sync := syncs }

/-- The lines `show_repos` prints for one successfully queried repository:
nothing if it is clean and `--all` was not given, otherwise the code line,
followed when `--branches` was given by `info()` for every branch that is
unsynced or untracked. -/
def repoLines (show_branch_details show_clean : Bool)
    (pr : String × GitStatus) : List String :=
  if pr.2.clean && !show_clean then []
  else
    (pr.2.code ++ " " ++ pr.1) ::
      (if show_branch_details then
        (pr.2.branch_sync.filter
          (fun st => !st.synced || !st.is_tracked)).map GitSyncStatus.info
      else [])

/-- The repository loop of `show_repos`, as a function of the traversal
result paired with each repository's status-query outcome.  The loop body
has no exception handler: a failing query propagates out, so the result is
the lines printed before the failure together with the uncaught error, if
any. -/
def show_repos (repos : List (String × Except PyErr GitStatus))
    (show_branch_details show_clean : Bool) : List String × Option PyErr :=
  match repos with
  | [] => ([], none)
  | (_, .error e) :: _ => ([], some e)
  | (folder, .ok status) :: rest =>
    let here := repoLines show_branch_details show_clean (folder, status)
    let r := show_repos rest show_branch_details show_clean
    (here ++ r.1, r.2)

/-- The repositories processed before the first failing status query. -/
def okRun : List (String × Except PyErr GitStatus) → List (String × GitStatus)
  | (p, .ok st) :: rest => (p, st) :: okRun rest
  | _ => []

/-- The first status-query failure of the traversal, if any. -/
def firstError : List (String × Except PyErr GitStatus) → Option PyErr
  | [] => none
  | (_, .error e) :: _ => some e
  | _ :: rest => firstError rest

/-- A divergence token that is neither the bare word `gone` nor two
whitespace-separated words with an integer second word. -/
def tokenMalformed (t : String) : Bool :=
  !(pyStrip t == "gone") &&
    (match pyWsSplit t with
     | [_, v] => (pyInt? v).isNone
     | _ => true)

/-- A clean repository with a nonzero stash count, for instantiations. -/
def C1ex : GitStatus :=
  { workdir_status := GitFlags.init ∅
    index_status := GitFlags.init ∅
    untracked := false
    num_stash_entries := 5
    head_sync := { branch := "main", remote := "origin/main" }
    branch_sync := [{ branch := "main", remote := "origin/main" }] }

/-- A clean repository whose head being a pseudo-branch is irrelevant. -/
def C3status : GitStatus :=
  { workdir_status := GitFlags.init ∅
    index_status := GitFlags.init ∅
    untracked := false
    num_stash_entries := 0
    head_sync := { branch := "main", remote := "origin/main" }
    branch_sync := [{ branch := "main", remote := "origin/main" }] }

/-- An untracked, unsynced pseudo-branch record. -/
def C3pseudo : GitSyncStatus := { branch := "_scratch", remote := "", gone := true }

/-- A repository whose only defect is a dirty working directory. -/
def C4dirty : GitStatus :=
  { workdir_status := GitFlags.init {'M'}
    index_status := GitFlags.init ∅
    untracked := false
    num_stash_entries := 0
    head_sync := { branch := "main", remote := "origin/main" }
    branch_sync := [{ branch := "main", remote := "origin/main" }] }

/-- A tracked record whose upstream is gone but with no ahead/behind
divergence. -/
def C9gone : GitSyncStatus := { branch := "b", remote := "origin/b", gone := true }

/-- An untracked record. -/
def C9untracked : GitSyncStatus := { branch := "f", remote := "" }

/-- A repository whose head branch is an untracked pseudo-branch. -/
def C10ex : GitStatus :=
  { workdir_status := GitFlags.init ∅
    index_status := GitFlags.init ∅
    untracked := false
    num_stash_entries := 0
    head_sync := { branch := "_x", remote := "" }
    branch_sync := [{ branch := "_x", remote := "" }] }

/-- A token that is neither `gone` nor a `key value` pair makes
`applyToken` raise `ValueError` from every state. -/
lemma applyToken_error_of_malformed (s : GitSyncStatus) (t : String)
    (hm : tokenMalformed t = true) : applyToken s t = .error .valueError := by
  unfold tokenMalformed at hm
  rw [Bool.and_eq_true] at hm
  obtain ⟨h1, h2⟩ := hm
  rw [Bool.not_eq_true'] at h1
  unfold applyToken
  simp only [h1, Bool.false_eq_true, if_false]
  cases hsp : pyWsSplit t with
  | nil => rfl
  | cons k ks =>
    cases ks with
    | nil => rfl
    | cons v vs =>
      cases vs with
      | nil =>
        rw [hsp] at h2
        have hint : pyInt? v = none := Option.isNone_iff_eq_none.mp h2
        simp [hint]
      | cons w ws => rfl

/-- A malformed token anywhere in the token list makes the whole
divergence loop fail. -/
lemma applyTokens_error (t : String) (hm : tokenMalformed t = true) :
    ∀ (ts : List String), t ∈ ts → ∀ s, ∃ e, applyTokens s ts = .error e := by
  intro ts
  induction ts with
  | nil => intro h; cases h
  | cons u us ih =>
    intro hmem s
    rcases List.mem_cons.mp hmem with rfl | hmem'
    · exact ⟨.valueError, by
        simp [applyTokens, applyToken_error_of_malformed s t hm]⟩
    · cases hap : applyToken s u with
      | ok s' =>
        obtain ⟨e, he⟩ := ih hmem' s'
        exact ⟨e, by simp [applyTokens, hap, he]⟩
      | error e => exact ⟨e, by simp [applyTokens, hap]⟩

/-- Wrapping a bracket-free string in brackets matches the `SYNC_PART`
regex with the string as the captured group. -/
lemma syncPartInner?_wrap (inner : String)
    (h : inner.data.all (fun c => !(c == '[') && !(c == ']')) = true) :
    syncPartInner? ("[" ++ inner ++ "]") = some inner := by
  obtain ⟨cs⟩ := inner
  have hd : ("[" ++ String.mk cs ++ "]").data = ('[' :: cs) ++ [']'] := rfl
  unfold syncPartInner?
  rw [hd, List.getLast?_concat]
  simp only [show (some ']' == some '\n') = false from rfl, Bool.false_eq_true,
    if_false, List.cons_append]
  rw [show (cs ++ [']']).getLast? = some ']' from List.getLast?_concat _,
    show (cs ++ [']']).dropLast = cs from List.dropLast_concat ..]
  simp [h]

/-- C1: a repository is clean exactly when the working directory and index
flag sets are clean, every branch record whose name does not start with
`_` reports synced, the head record has a non-empty remote, and the count
of non-head non-pseudo untracked branches is zero; the stash count does
not enter the verdict. -/
theorem C1_clean_characterization (s : GitStatus) :
    (s.clean = true ↔
      (s.workdir_status.clean = true ∧ s.index_status.clean = true ∧
       (∀ b ∈ s.branch_sync, pyStartswith b.branch "_" = false → b.synced = true) ∧
       s.head_sync.remote ≠ "" ∧
       s.num_untracked_branches = 0)) ∧
    (∀ n : Nat,
      ({ s with num_stash_entries := n } : GitStatus).clean = s.clean) := by
  refine ⟨?_, fun n => rfl⟩
  simp only [GitStatus.clean, Bool.and_eq_true, GitStatus.synced, List.all_eq_true,
    List.mem_filter, GitSyncStatus.is_tracked, bne_iff_ne, ne_eq, beq_iff_eq,
    Bool.not_eq_true']
  constructor
  · rintro ⟨⟨⟨⟨hw, hi⟩, hs⟩, hh⟩, hn⟩
    exact ⟨hw, hi, fun b hb hns => hs b ⟨hb, hns⟩, hh, hn⟩
  · rintro ⟨hw, hi, hs, hh, hn⟩
    exact ⟨⟨⟨⟨hw, hi⟩, fun b hb => hs b hb.1 hb.2⟩, hh⟩, hn⟩

/-- C1, instantiated: a repository that is clean in every dimension stays
clean with five stash entries, and zeroing the stash count leaves the
verdict unchanged. -/
theorem C1_clean_characterization_witness :
    C1ex.clean = true ∧
    ({ C1ex with num_stash_entries := 0 } : GitStatus).clean = C1ex.clean :=
  ⟨(C1_clean_characterization C1ex).1.mpr
      ⟨rfl, rfl, by decide, by decide, rfl⟩,
   (C1_clean_characterization C1ex).2 0⟩

/-- C2: `code()` has exactly 7 characters, in the order
workdir/index/untracked-files/branch-sync/head-tracked/untracked-branches/
stash, each a letter from `WITLHBS` when bad and a space when OK; and the
clean one-branch repository renders as seven spaces. -/
theorem C2_code_layout :
    (∀ s : GitStatus,
      s.code.length = 7 ∧
      s.code.data[0]? = some (if s.workdir_status.clean then ' ' else 'W') ∧
      s.code.data[1]? = some (if s.index_status.clean then ' ' else 'I') ∧
      s.code.data[2]? = some (if s.untracked then 'T' else ' ') ∧
      s.code.data[3]? = some (if s.synced then ' ' else 'L') ∧
      s.code.data[4]? = some (if s.head_sync.is_tracked then ' ' else 'H') ∧
      s.code.data[5]? = some (if s.num_untracked_branches = 0 then ' ' else 'B') ∧
      s.code.data[6]? = some (if s.num_stash_entries = 0 then ' ' else 'S')) ∧
    (GitStatus.init "## main...origin/main" "" "main...origin/main").map
      (fun st => (st.clean, st.code)) = .ok (true, "       ") := by
  refine ⟨fun s => ⟨rfl, rfl, rfl, rfl, rfl, rfl, ?_, ?_⟩, rfl⟩
  · by_cases h : s.num_untracked_branches = 0 <;> simp [GitStatus.code, h]
  · by_cases h : s.num_stash_entries = 0 <;> simp [GitStatus.code, h]

/-- C3: appending an untracked, unsynced record for a branch named
`_scratch` changes none of `clean`, `synced`, `num_untracked_branches`;
and with head `main` tracked plus `wip` untracked, the count is 1 and the
code contains `B`. -/
theorem C3_pseudo_branch_exclusion :
    (∀ (s : GitStatus) (p : GitSyncStatus),
      p.branch = "_scratch" → p.is_tracked = false → p.synced = false →
      (({ s with branch_sync := s.branch_sync ++ [p] } : GitStatus).clean
          = s.clean ∧
       ({ s with branch_sync := s.branch_sync ++ [p] } : GitStatus).synced
          = s.synced ∧
       ({ s with branch_sync := s.branch_sync ++ [p] } :
          GitStatus).num_untracked_branches = s.num_untracked_branches)) ∧
    (GitStatus.init "## main...origin/main" "" "main...origin/main\nwip").map
      (fun st => (st.num_untracked_branches, st.code.data.contains 'B'))
      = .ok (1, true) := by
  refine ⟨?_, rfl⟩
  intro s p hb _ _
  have hp : pyStartswith p.branch "_" = true := by rw [hb]; rfl
  have hsy : ({ s with branch_sync := s.branch_sync ++ [p] } : GitStatus).synced
      = s.synced := by
    simp [GitStatus.synced, List.filter_append, hp]
  have hnum : ({ s with branch_sync := s.branch_sync ++ [p] } :
      GitStatus).num_untracked_branches = s.num_untracked_branches := by
    simp [GitStatus.num_untracked_branches, List.countP_append, hp]
  exact ⟨by simp [GitStatus.clean, hsy, hnum], hsy, hnum⟩

/-- C3, instantiated at a clean one-branch repository and the `_scratch`
record. -/
theorem C3_pseudo_branch_exclusion_witness :
    ({ C3status with branch_sync := C3status.branch_sync ++ [C3pseudo] } :
        GitStatus).clean = C3status.clean ∧
    ({ C3status with branch_sync := C3status.branch_sync ++ [C3pseudo] } :
        GitStatus).synced = C3status.synced ∧
    ({ C3status with branch_sync := C3status.branch_sync ++ [C3pseudo] } :
        GitStatus).num_untracked_branches = C3status.num_untracked_branches :=
  C3_pseudo_branch_exclusion.1 C3status C3pseudo rfl rfl rfl

/-- C6: parsing a tracked line with an `ahead 2, behind 1` divergence
group, and one with `gone`, yields the expected structured records. -/
theorem C6_parse_divergence :
    (GitSyncStatus.parse "main...origin/main [ahead 2, behind 1]").map
      (fun s => (s.branch, s.remote, s.is_tracked, s.ahead, s.behind, s.gone,
        s.synced))
      = .ok ("main", "origin/main", true, 2, 1, false, false) ∧
    (GitSyncStatus.parse "main...origin/main [gone]").map
      (fun s => (s.gone, s.synced)) = .ok (true, false) :=
  ⟨rfl, rfl⟩

/-- C10: a head record with an empty remote makes the repository unclean
and puts `H` in column 5 of the code, regardless of the head's name. -/
theorem C10_head_untracked (s : GitStatus) (h : s.head_sync.remote = "") :
    s.clean = false ∧ s.code.data[4]? = some 'H' := by
  have ht : s.head_sync.is_tracked = false := by
    simp [GitSyncStatus.is_tracked, h]
  exact ⟨by simp [GitStatus.clean, ht], by simp [GitStatus.code, ht]⟩

/-- C10, instantiated at a repository whose head branch name starts with
the reserved prefix `_`. -/
theorem C10_head_untracked_witness :
    C10ex.clean = false ∧ C10ex.code.data[4]? = some 'H' :=
  C10_head_untracked C10ex rfl

/-- C4 as stated is false: in a 3-repository traversal whose middle
repository's status query fails, only the first repository gets a status
line (not two), and the error escapes the driver. -/
theorem C4_abort_counterexample :
    show_repos
      [("r1", .ok C4dirty), ("r2", .error .valueError), ("r3", .ok C4dirty)]
      false false = (["W       r1"], some .valueError) ∧
    (show_repos
      [("r1", .ok C4dirty), ("r2", .error .valueError), ("r3", .ok C4dirty)]
      false false).1.length ≠ 2 :=
  ⟨rfl, by decide⟩

/-- C4, amended: the driver has no handler, so a status-query failure
aborts the traversal at the first failing repository; output lines come
exactly from the repositories before it, and the first error propagates. -/
theorem C4_abort_on_first_failure
    (repos : List (String × Except PyErr GitStatus))
    (show_branch_details show_clean : Bool) :
    show_repos repos show_branch_details show_clean =
      (((okRun repos).map (repoLines show_branch_details show_clean)).flatten,
        firstError repos) := by
  induction repos with
  | nil => rfl
  | cons pr rest ih =>
    obtain ⟨p, st⟩ := pr
    cases st with
    | error e => rfl
    | ok stat => simp [show_repos, okRun, firstError, ih]

/-- C5 as stated is false: a divergence token with the unknown key `foo`
is accepted, producing a record with an extra dynamic attribute and
default `ahead`/`behind`/`gone`. -/
theorem C5_unknown_key_counterexample :
    GitSyncStatus.parse "main...origin/main [foo 3]" =
      .ok { branch := "main", remote := "origin/main",
            extra := [("foo", 3)] } :=
  rfl

/-- C5, amended: parsing a bracketed divergence group fails whenever some
comma-separated token is neither the bare word `gone` nor two
whitespace-separated words with an integer second word; unknown keys with
integer values are accepted and leave `ahead`/`behind`/`gone` alone. -/
theorem C5_malformed_token_error :
    (∀ (b r inner t : String),
      inner.data.all (fun c => !(c == '[') && !(c == ']')) = true →
      t ∈ (splitOnChar ',' inner.data).map String.mk →
      tokenMalformed t = true →
      ∃ e, GitSyncStatus.init b r ("[" ++ inner ++ "]") = .error e) ∧
    (GitSyncStatus.parse "x...y [foo 3, behind 1]").map
      (fun s => (s.behind, s.extra, s.gone, s.ahead))
      = .ok (1, [("foo", 3)], false, 0) := by
  refine ⟨?_, rfl⟩
  intro b r inner t hbr hmem hm
  have hw : syncPartInner? ("[" ++ inner ++ "]") = some inner :=
    syncPartInner?_wrap inner hbr
  unfold GitSyncStatus.init
  rw [hw]
  exact applyTokens_error t hm _ hmem { branch := b, remote := r }

/-- C5, instantiated: the one-word token `flob` makes construction fail. -/
theorem C5_malformed_token_witness :
    ∃ e, GitSyncStatus.init "main" "origin/main" ("[" ++ "flob" ++ "]")
      = .error e :=
  C5_malformed_token_error.1 "main" "origin/main" "flob" "flob"
    (by decide) (by decide) (by decide)

/-- C7: a status line with no `...` separator parses to an untracked
record with empty remote and default divergence, whose `synced` is
nonetheless true. -/
theorem C7_no_separator_defaults (s : String) (h : hasDots s.data = false) :
    GitSyncStatus.parse s = .ok { branch := pyStrip s, remote := "" } ∧
    ∀ r, GitSyncStatus.parse s = .ok r →
      (r.remote = "" ∧ r.is_tracked = false ∧ r.ahead = 0 ∧ r.behind = 0 ∧
        r.gone = false ∧ r.synced = true) := by
  have hn : splitFirstDots s.data = none := by
    cases hd : splitFirstDots s.data with
    | none => rfl
    | some p => rw [hasDots, hd] at h; cases h
  have hp : GitSyncStatus.parse s = .ok { branch := pyStrip s, remote := "" } := by
    unfold GitSyncStatus.parse
    rw [hn]
    rfl
  refine ⟨hp, fun r hr => ?_⟩
  rw [hp] at hr
  injection hr with h2
  subst h2
  exact ⟨rfl, rfl, rfl, rfl, rfl, rfl⟩

/-- C7, instantiated at the line `feature`. -/
theorem C7_no_separator_witness :
    GitSyncStatus.parse "feature"
      = .ok { branch := pyStrip "feature", remote := "" } ∧
    ∀ r, GitSyncStatus.parse "feature" = .ok r →
      (r.remote = "" ∧ r.is_tracked = false ∧ r.ahead = 0 ∧ r.behind = 0 ∧
        r.gone = false ∧ r.synced = true) :=
  C7_no_separator_defaults "feature" rfl

/-- C8: for a flag set without the space sentinel, `clean` holds exactly
on the empty set, each named predicate is membership of its letter, and a
character outside the `MADRCUT` vocabulary changes no predicate. -/
theorem C8_flag_predicates (S : Finset Char) (h : ' ' ∉ S) :
    ((GitFlags.init S).clean = true ↔ S = ∅) ∧
    ((GitFlags.init S).modified = true ↔ 'M' ∈ S) ∧
    ((GitFlags.init S).added = true ↔ 'A' ∈ S) ∧
    ((GitFlags.init S).deleted = true ↔ 'D' ∈ S) ∧
    ((GitFlags.init S).renamed = true ↔ 'R' ∈ S) ∧
    ((GitFlags.init S).copied = true ↔ 'C' ∈ S) ∧
    ((GitFlags.init S).unmerged = true ↔ 'U' ∈ S) ∧
    ((GitFlags.init S).typechange = true ↔ 'T' ∈ S) ∧
    (∀ c : Char, c ∉ (['M', 'A', 'D', 'R', 'C', 'U', 'T'] : List Char) →
      ((GitFlags.init (insert c S)).modified = (GitFlags.init S).modified ∧
       (GitFlags.init (insert c S)).added = (GitFlags.init S).added ∧
       (GitFlags.init (insert c S)).deleted = (GitFlags.init S).deleted ∧
       (GitFlags.init (insert c S)).renamed = (GitFlags.init S).renamed ∧
       (GitFlags.init (insert c S)).copied = (GitFlags.init S).copied ∧
       (GitFlags.init (insert c S)).unmerged = (GitFlags.init S).unmerged ∧
       (GitFlags.init (insert c S)).typechange
          = (GitFlags.init S).typechange)) := by
  have hS : S.erase ' ' = S := Finset.erase_eq_of_not_mem h
  refine ⟨by simp [GitFlags.init, hS], by simp [GitFlags.init, hS],
    by simp [GitFlags.init, hS], by simp [GitFlags.init, hS],
    by simp [GitFlags.init, hS], by simp [GitFlags.init, hS],
    by simp [GitFlags.init, hS], by simp [GitFlags.init, hS], ?_⟩
  intro c hc
  simp only [List.mem_cons, List.not_mem_nil, or_false, not_or] at hc
  obtain ⟨h1, h2, h3, h4, h5, h6, h7⟩ := hc
  by_cases hsp : c = ' '
  · subst hsp
    have he : (insert ' ' S).erase ' ' = S.erase ' ' :=
      Finset.erase_insert_eq_erase S ' '
    exact ⟨by simp [GitFlags.init, he], by simp [GitFlags.init, he],
      by simp [GitFlags.init, he], by simp [GitFlags.init, he],
      by simp [GitFlags.init, he], by simp [GitFlags.init, he],
      by simp [GitFlags.init, he]⟩
  · have he : (insert c S).erase ' ' = insert c S := by
      rw [Finset.erase_insert_of_ne hsp, hS]
    refine ⟨?_, ?_, ?_, ?_, ?_, ?_, ?_⟩
    · simp only [GitFlags.init, he, hS, decide_eq_decide, Finset.mem_insert]
      exact ⟨fun hh => hh.resolve_left (Ne.symm h1), Or.inr⟩
    · simp only [GitFlags.init, he, hS, decide_eq_decide, Finset.mem_insert]
      exact ⟨fun hh => hh.resolve_left (Ne.symm h2), Or.inr⟩
    · simp only [GitFlags.init, he, hS, decide_eq_decide, Finset.mem_insert]
      exact ⟨fun hh => hh.resolve_left (Ne.symm h3), Or.inr⟩
    · simp only [GitFlags.init, he, hS, decide_eq_decide, Finset.mem_insert]
      exact ⟨fun hh => hh.resolve_left (Ne.symm h4), Or.inr⟩
    · simp only [GitFlags.init, he, hS, decide_eq_decide, Finset.mem_insert]
      exact ⟨fun hh => hh.resolve_left (Ne.symm h5), Or.inr⟩
    · simp only [GitFlags.init, he, hS, decide_eq_decide, Finset.mem_insert]
      exact ⟨fun hh => hh.resolve_left (Ne.symm h6), Or.inr⟩
    · simp only [GitFlags.init, he, hS, decide_eq_decide, Finset.mem_insert]
      exact ⟨fun hh => hh.resolve_left (Ne.symm h7), Or.inr⟩

/-- C8, instantiated at the singleton set holding `M`. -/
theorem C8_flag_predicates_witness : (GitFlags.init {'M'}).modified = true :=
  ((C8_flag_predicates {'M'} (by decide)).2.1).mpr (by decide)

/-- C9 as stated is false at a tracked record whose upstream is gone with
no ahead/behind divergence: none of the four listed cases applies (it is
tracked, not synced, not ahead, not behind), yet the rendered status code
is `=`. -/
theorem C9_gone_counterexample :
    C9gone.is_tracked = true ∧ C9gone.synced = false ∧
    ¬(C9gone.behind > 0) ∧ ¬(C9gone.ahead > 0) ∧
    C9gone.infoCode = "=" ∧ C9gone.info = "         =  b" :=
  ⟨rfl, rfl, by decide, by decide, rfl, rfl⟩

/-- C9, amended: the code is `U` for untracked records; for tracked
records it is the concatenation of `<` (behind) and `>` (ahead) when
either is positive and `=` otherwise — so `=` also covers the non-synced
gone case; `info()` is nine spaces, the code padded to two columns, a
space, and the branch name. -/
theorem C9_info_code (r : GitSyncStatus) :
    (r.is_tracked = false → r.infoCode = "U") ∧
    (r.is_tracked = true →
      r.infoCode =
        (if r.behind > 0 ∨ r.ahead > 0 then
          (if r.behind > 0 then "<" else "") ++ (if r.ahead > 0 then ">" else "")
        else "=")) ∧
    (r.is_tracked = true → r.synced = true → r.infoCode = "=") ∧
    r.info = "         " ++ padRight r.infoCode 2 ++ " " ++ r.branch := by
  refine ⟨fun h => by simp [GitSyncStatus.infoCode, h], fun h => ?_, ?_, rfl⟩
  · by_cases hb : r.behind > 0 <;> by_cases ha : r.ahead > 0 <;>
      simp [GitSyncStatus.infoCode, h, hb, ha]
  · intro h hs
    rw [GitSyncStatus.synced, Bool.and_eq_true, Bool.and_eq_true] at hs
    obtain ⟨⟨ha, hb⟩, _⟩ := hs
    rw [beq_iff_eq] at ha hb
    simp [GitSyncStatus.infoCode, h, ha, hb]

/-- C9, instantiated at an untracked record. -/
theorem C9_info_code_witness : C9untracked.infoCode = "U" :=
  (C9_info_code C9untracked).1 rfl

end Gitcheck

